import Mathlib

/-!
Shallow embedding of the PPTAgent backend process supervisor.

The repository contains two implementations of the supervisor:

* `electron-app/src/backend-manager.js` (modelled below with the `bm1`
  prefix): 30 s startup timeout, spawn arguments `['-u']`, no check that
  the backend executable exists, readiness detected by the substring
  `"Running on"` or a `localhost:(\d+)` match.

* the `BackendManager` embedded in `electron-app/src/preload.js`
  (modelled with the `bm2` prefix): 60 s startup timeout, spawn
  arguments `['-u', '--port', String(port)]`, an `fs.existsSync` check
  before spawning, readiness markers `"Running on"`, `"Launching
  Gradio"`, `"local URL:"` or a `localhost:(\d+)` match, and an early
  return for chunks containing `"initializing"`.

The port allocator (`findAvailablePort`) and `stop()` are textually
identical in the two files and are modelled once.  Strings are `List
Char`; the OS socket layer is an oracle `avail : Nat → Bool`; the
filesystem is an oracle `pathExists : List Char → Bool`; the child
process is a list of events delivered to the handlers that `start()`
registers.  `path.join` is modelled as separator concatenation (no
`..` normalisation); no claim depends on path normalisation.
-/

namespace PPTAgent

/-- JS `hay.includes(needle)`: substring test on explicit characters. -/
def containsSub : List Char → List Char → Bool
  | [], needle => needle.isEmpty
  | c :: t, needle => List.isPrefixOf needle (c :: t) || containsSub t needle

/-- Numeric value of a decimal digit string, as produced by
`parseInt(digits, 10)` on a `\d+` capture. -/
def digitsToNat (ds : List Char) : Nat :=
  ds.foldl (fun a c => 10 * a + (c.toNat - '0'.toNat)) 0

/-- JS `output.match(/localhost:(\d+)/)`: scan left to right for the first
position where `localhost:` is followed by at least one decimal digit and
return the value of the maximal digit run (the greedy `\d+` capture).
When `localhost:` occurs without a following digit the regex engine
resumes the search one character later, as does this function. -/
def matchLocalhostPort : List Char → Option Nat
  | [] => none
  | c :: t =>
    if List.isPrefixOf ("localhost:".data) (c :: t) then
      let ds := ((c :: t).drop 10).takeWhile Char.isDigit
      if ds.isEmpty then matchLocalhostPort t else some (digitsToNat ds)
    else matchLocalhostPort t

/-- `const DEFAULT_PORT = 7861` (both variants). -/
def DEFAULT_PORT : Nat := 7861

/-- `const MAX_PORT_ATTEMPTS = 10` (both variants). -/
def MAX_PORT_ATTEMPTS : Nat := 10

/-- The errors `start()` and `findAvailablePort` construct, keyed by the
error kinds named in the spec; payloads are the data interpolated into
the corresponding `Error` message. -/
inductive StartError
  /-- `No available port found in range ${startPort}-${startPort + maxAttempts - 1}` -/
  | noPortAvailable (rangeStart rangeEnd : Nat)
  /-- `Backend not found: ${backendPath}\n\n${helpMsg}` (preload.js variant only) -/
  | backendNotFound (path hint : List Char)
  /-- `Backend startup timeout (30s)` / `(60s)`; payload is the `setTimeout` delay in ms -/
  | startupTimeout (delayMs : Nat)
  /-- `Failed to start backend: ${err.message}` -/
  | spawnError (msg : List Char)
  deriving DecidableEq

/-- The loop body of `findAvailablePort`: starting at `port` with
`attempts` candidates left, return the list of ports actually probed by
`isPortAvailable` and the first one whose transient bind succeeds,
given the availability oracle `avail`. -/
def findAvailablePortFrom (avail : Nat → Bool) (port : Nat) :
    Nat → List Nat × Option Nat
  | 0 => ([], none)
  | Nat.succ n =>
    if avail port then ([port], some port)
    else
      let r := findAvailablePortFrom avail (port + 1) n
      (port :: r.1, r.2)

/-- `findAvailablePort(startPort, maxAttempts)`: the probed ports and the
result — the first available port, or the no-port error carrying the
probed range exactly as interpolated into the source's message. -/
def findAvailablePort (avail : Nat → Bool) (startPort maxAttempts : Nat) :
    List Nat × Except StartError Nat :=
  let r := findAvailablePortFrom avail startPort maxAttempts
  (r.1,
    match r.2 with
    | some p => Except.ok p
    | none => Except.error (.noPortAvailable startPort (startPort + maxAttempts - 1)))

/-- Supervisor state: `this.process`, `this.port`, `this.isReady`.
The process handle is modelled by its pid. -/
structure SupState where
  process : Option Nat
  port : Nat
  isReady : Bool
  deriving DecidableEq

/-- `constructor()`: `process = null`, `port = DEFAULT_PORT`, `isReady = false`. -/
def SupState.init : SupState := ⟨none, DEFAULT_PORT, false⟩

/-- `stop()` (identical in both variants): when a process handle exists,
`tree-kill` it with SIGTERM — the callback runs whether or not the kill
reported an error (`killErr`), clears `process` and `isReady` and
resolves; when no handle exists, resolve at once leaving the state
unchanged.  The first component records the pid a termination signal
was issued for. -/
def stop (st : SupState) (killErr : Bool) : Option Nat × SupState :=
  match st.process with
  | some pid => (some pid, { st with process := none, isReady := false })
  | none => (none, st)

/-- `this.port.toString()` — decimal digits of the allocated port. -/
def natToChars (n : Nat) : List Char := Nat.toDigits 10 n

/-- `getBackendPath()`: `path.join(process.resourcesPath, 'backend',
'backend.exe')` when packaged, `path.join(__dirname,
'../../python-dist/backend.exe')` otherwise (identical in both
variants); `path.join` modelled as `/`-separated concatenation. -/
def getBackendPath (isPackaged : Bool) (resourcesPath dirname : List Char) : List Char :=
  if isPackaged then resourcesPath ++ "/backend/backend.exe".data
  else dirname ++ "/../../python-dist/backend.exe".data

/-- The remediation hint for a missing executable in development mode
(preload.js variant). -/
def devHint : List Char :=
  "Run \"pyinstaller backend.spec --clean && cp dist/backend.exe python-dist/\" to build it.".data

/-- The remediation hint for a missing executable in a packaged build
(preload.js variant). -/
def packagedHint : List Char :=
  "Please reinstall the application or contact support.".data

/-- The `spawn(backendPath, args, { stdio, windowsHide })` call made by
`start()`: command, argument vector, whether all three stdio streams
are `'pipe'`, and the `windowsHide` flag. -/
structure SpawnCall where
  cmd : List Char
  args : List (List Char)
  stdioPiped : Bool
  windowsHide : Bool
  deriving DecidableEq

/-- `setTimeout(..., 30000)` in backend-manager.js. -/
def bm1TimeoutMs : Nat := 30000

/-- `setTimeout(..., 60000)` in the preload.js variant. -/
def bm2TimeoutMs : Nat := 60000

/-- backend-manager.js stdout handler, reduced to its effect: `some p`
when the chunk is accepted as a readiness signal (resolving with `p`,
the `localhost:(\d+)` capture when present, else the current port),
`none` when the chunk is ignored. -/
def bm1Stdout (port : Nat) (chunk : List Char) : Option Nat :=
  let pm := matchLocalhostPort chunk
  if containsSub chunk ("Running on".data) || pm.isSome then
    some (pm.getD port)
  else none

/-- preload.js stdout handler: chunks containing `"initializing"` are
logged and skipped; otherwise readiness is any of the three marker
substrings or a `localhost:(\d+)` match, resolving as in `bm1Stdout`. -/
def bm2Stdout (port : Nat) (chunk : List Char) : Option Nat :=
  if containsSub chunk ("initializing".data) then none
  else
    let pm := matchLocalhostPort chunk
    if containsSub chunk ("Running on".data)
        || containsSub chunk ("Launching Gradio".data)
        || containsSub chunk ("local URL:".data)
        || pm.isSome then
      some (pm.getD port)
    else none

/-- Events delivered to the handlers `start()` registers on the spawned
child: stdout data, stderr data, a `spawn` error, process exit, and the
firing of the startup timer. -/
inductive BackendEvent
  | stdout (chunk : List Char)
  | stderr (chunk : List Char)
  | procError (msg : List Char)
  | exit (code : Int)
  | timeoutFires
  deriving DecidableEq

instance : DecidableEq (Except StartError Nat) := fun a b =>
  match a, b with
  | .ok x, .ok y => if h : x = y then isTrue (by rw [h]) else isFalse (by simpa using h)
  | .error x, .error y => if h : x = y then isTrue (by rw [h]) else isFalse (by simpa using h)
  | .ok _, .error _ => isFalse (by simp)
  | .error _, .ok _ => isFalse (by simp)

/-- State of one in-flight `start()` promise after the spawn: how the
promise settled (`none` while pending — a promise settles at most once),
whether `clearTimeout` has been called, and the supervisor fields. -/
structure RunState where
  settled : Option (Except StartError Nat)
  timeoutCleared : Bool
  sup : SupState
  deriving DecidableEq

/-- `resolve`/`reject`: only the first settlement of the promise sticks. -/
def settleWith (rs : RunState) (r : Except StartError Nat) : RunState :=
  match rs.settled with
  | some _ => rs
  | none => { rs with settled := some r }

/-- One event against the handlers `start()` registered, parametrised by
the variant's stdout handler and `setTimeout` delay.  The stdout handler
mutates `this.port` / `this.isReady` and calls `clearTimeout` even when
the promise is already settled, exactly as the source does; `exit` only
resets `isReady`; the timer rejects with the startup-timeout error
unless `clearTimeout` ran first. -/
def stepEvent (handler : Nat → List Char → Option Nat) (delayMs : Nat)
    (rs : RunState) (e : BackendEvent) : RunState :=
  match e with
  | .stdout c =>
    match handler rs.sup.port c with
    | none => rs
    | some p =>
      settleWith
        { rs with timeoutCleared := true,
                  sup := { rs.sup with port := p, isReady := true } }
        (Except.ok p)
  | .stderr _ => rs
  | .procError m => settleWith { rs with timeoutCleared := true } (Except.error (.spawnError m))
  | .exit _ => { rs with sup := { rs.sup with isReady := false } }
  | .timeoutFires =>
    if rs.timeoutCleared then rs
    else settleWith rs (Except.error (.startupTimeout delayMs))

/-- What one `start()` call did: how its promise settled (`none` =
still pending), the final supervisor state, the spawn call if one was
made, and the `setTimeout` delay if a startup timer was registered. -/
structure StartResult where
  outcome : Option (Except StartError Nat)
  sup : SupState
  spawned : Option SpawnCall
  timerDelayMs : Option Nat
  deriving DecidableEq

/-- `start()` of backend-manager.js: allocate a port (rejecting with the
allocator's error unchanged on failure, no spawn); otherwise assign
`this.port`, spawn `backendPath` with `['-u']` and piped stdio, assign
`this.process`, register the 30 s timer, and run the child's events
through the registered handlers. -/
def bm1Start (avail : Nat → Bool) (isPackaged : Bool) (resourcesPath dirname : List Char)
    (pid : Nat) (events : List BackendEvent) (st0 : SupState) : StartResult :=
  match (findAvailablePort avail DEFAULT_PORT MAX_PORT_ATTEMPTS).2 with
  | .error e => ⟨some (.error e), st0, none, none⟩
  | .ok p =>
    let backendPath := getBackendPath isPackaged resourcesPath dirname
    let call : SpawnCall := ⟨backendPath, ["-u".data], true, true⟩
    let st1 : SupState := { st0 with port := p, process := some pid }
    let rs := events.foldl (stepEvent bm1Stdout bm1TimeoutMs) ⟨none, false, st1⟩
    ⟨rs.settled, rs.sup, some call, some bm1TimeoutMs⟩

/-- `start()` of the preload.js variant: as `bm1Start`, but after
allocating the port it checks `fs.existsSync(backendPath)` and rejects
with the not-found error (development or packaged hint) before any
spawn when the executable is missing; the spawn passes
`['-u', '--port', String(port)]` and the timer delay is 60 s. -/
def bm2Start (avail : Nat → Bool) (pathExists : List Char → Bool) (isPackaged : Bool)
    (resourcesPath dirname : List Char) (pid : Nat) (events : List BackendEvent)
    (st0 : SupState) : StartResult :=
  match (findAvailablePort avail DEFAULT_PORT MAX_PORT_ATTEMPTS).2 with
  | .error e => ⟨some (.error e), st0, none, none⟩
  | .ok p =>
    let st1 : SupState := { st0 with port := p }
    let backendPath := getBackendPath isPackaged resourcesPath dirname
    if pathExists backendPath then
      let call : SpawnCall := ⟨backendPath, ["-u".data, "--port".data, natToChars p], true, true⟩
      let st2 : SupState := { st1 with process := some pid }
      let rs := events.foldl (stepEvent bm2Stdout bm2TimeoutMs) ⟨none, false, st2⟩
      ⟨rs.settled, rs.sup, some call, some bm2TimeoutMs⟩
    else
      let hint := if isPackaged then packagedHint else devHint
      ⟨some (.error (.backendNotFound backendPath hint)), st1, none, none⟩

/-- The condition under which the backend-manager.js stdout handler
accepts a chunk as a readiness signal (it does not depend on the
current port). -/
def bm1ReadyCond (c : List Char) : Bool :=
  containsSub c ("Running on".data) || (matchLocalhostPort c).isSome

/-- The condition under which the preload.js stdout handler accepts a
chunk as a readiness signal. -/
def bm2ReadyCond (c : List Char) : Bool :=
  !containsSub c ("initializing".data) &&
    (containsSub c ("Running on".data) || containsSub c ("Launching Gradio".data) ||
     containsSub c ("local URL:".data) || (matchLocalhostPort c).isSome)

/-- Number of `false → true` transitions of `this.isReady` along a run
of events from a given run state. -/
def flipCount (handler : Nat → List Char → Option Nat) (delayMs : Nat) :
    RunState → List BackendEvent → Nat
  | _, [] => 0
  | rs, e :: es =>
    let rs2 := stepEvent handler delayMs rs e
    (if rs.sup.isReady = false ∧ rs2.sup.isReady = true then 1 else 0) +
      flipCount handler delayMs rs2 es

theorem findFrom_mem (avail : Nat → Bool) :
    ∀ (N P : Nat), ∀ p ∈ (findAvailablePortFrom avail P N).1, P ≤ p ∧ p < P + N := by
  intro N
  induction N with
  | zero => intro P p hp; simp [findAvailablePortFrom] at hp
  | succ n ih =>
    intro P p hp
    cases h : avail P with
    | true =>
      simp [findAvailablePortFrom, h] at hp
      subst hp; omega
    | false =>
      simp [findAvailablePortFrom, h] at hp
      rcases hp with rfl | hp
      · omega
      · have := ih (P + 1) p hp
        omega

theorem findFrom_pairwise (avail : Nat → Bool) :
    ∀ (N P : Nat), List.Pairwise (· < ·) (findAvailablePortFrom avail P N).1 := by
  intro N
  induction N with
  | zero => intro P; simp [findAvailablePortFrom]
  | succ n ih =>
    intro P
    cases h : avail P with
    | true => simp [findAvailablePortFrom, h]
    | false =>
      simp only [findAvailablePortFrom, h, Bool.false_eq_true, if_false, List.pairwise_cons]
      refine ⟨fun b hb => ?_, ih (P + 1)⟩
      have := findFrom_mem avail n (P + 1) b hb
      omega

theorem findFrom_ok (avail : Nat → Bool) :
    ∀ (N P q : Nat), (findAvailablePortFrom avail P N).2 = some q →
      q ∈ (findAvailablePortFrom avail P N).1 ∧ avail q = true ∧
      P ≤ q ∧ q < P + N ∧ ∀ p, P ≤ p → p < q → avail p = false := by
  intro N
  induction N with
  | zero => intro P q hq; simp [findAvailablePortFrom] at hq
  | succ n ih =>
    intro P q hq
    cases h : avail P with
    | true =>
      simp [findAvailablePortFrom, h] at hq
      subst hq
      refine ⟨by simp [findAvailablePortFrom, h], h, by omega, by omega,
        fun p h1 h2 => absurd h2 (by omega)⟩
    | false =>
      simp only [findAvailablePortFrom, h, Bool.false_eq_true, if_false] at hq
      simp only [findAvailablePortFrom, h, Bool.false_eq_true, if_false]
      obtain ⟨hmem, hav, hle, hlt, hfirst⟩ := ih (P + 1) q hq
      refine ⟨List.mem_cons_of_mem _ hmem, hav, by omega, by omega, fun p h1 h2 => ?_⟩
      rcases Nat.lt_or_ge p (P + 1) with hp | hp
      · have : p = P := by omega
        subst this; exact h
      · exact hfirst p hp h2

/-- C1: `findAvailablePort(P, N)` probes only ports in `[P, P+N)`, in
strictly ascending order; a returned port was probed, its transient
bind succeeded, it lies in `[P, P+N)`, and every port of `[P, q)` below
it failed its bind — so it is the first available candidate. -/
theorem c1_port_allocator_range (avail : Nat → Bool) (P N : Nat) :
    (∀ p ∈ (findAvailablePort avail P N).1, P ≤ p ∧ p < P + N) ∧
    List.Pairwise (· < ·) (findAvailablePort avail P N).1 ∧
    (∀ q, (findAvailablePort avail P N).2 = Except.ok q →
      q ∈ (findAvailablePort avail P N).1 ∧ avail q = true ∧ P ≤ q ∧ q < P + N ∧
      ∀ p, P ≤ p → p < q → avail p = false) := by
  refine ⟨fun p hp => findFrom_mem avail N P p hp, findFrom_pairwise avail N P, fun q hq => ?_⟩
  have h2 : (findAvailablePortFrom avail P N).2 = some q := by
    cases hr : (findAvailablePortFrom avail P N).2 with
    | some p =>
      simp [findAvailablePort, hr] at hq
      exact congrArg some hq
    | none => simp [findAvailablePort, hr] at hq
  have := findFrom_ok avail N P q h2
  simpa [findAvailablePort] using this

/-- Witness for `c1_port_allocator_range`: with only port 7862 free in a
probe starting at 7861, the allocator returns 7862, which is in range,
available, and preceded only by unavailable ports. -/
theorem c1_port_allocator_range_witness :
    7862 ∈ (findAvailablePort (fun p => p == 7862) 7861 10).1 ∧
    (fun p : Nat => p == 7862) 7862 = true ∧ 7861 ≤ 7862 ∧ 7862 < 7861 + 10 ∧
    ∀ p, 7861 ≤ p → p < 7862 → (fun p : Nat => p == 7862) p = false :=
  (c1_port_allocator_range (fun p => p == 7862) 7861 10).2.2 7862 (by decide)

theorem findFrom_none (avail : Nat → Bool) :
    ∀ (N P : Nat), (∀ p, P ≤ p → p < P + N → avail p = false) →
      (findAvailablePortFrom avail P N).2 = none := by
  intro N
  induction N with
  | zero => intro P _; simp [findAvailablePortFrom]
  | succ n ih =>
    intro P h
    have hP : avail P = false := h P (Nat.le_refl P) (by omega)
    simp only [findAvailablePortFrom, hP, Bool.false_eq_true, if_false]
    exact ih (P + 1) (fun p h1 h2 => h p (by omega) (by omega))

/-- C2: when every port of the probed range `[7861, 7871)` is occupied,
the allocator fails with the no-port error carrying the probed range,
both variants of `start()` settle with exactly that error, the
supervisor state is untouched, and no spawn call is made. -/
theorem c2_no_port_no_spawn (avail : Nat → Bool)
    (h : ∀ p, DEFAULT_PORT ≤ p → p < DEFAULT_PORT + MAX_PORT_ATTEMPTS → avail p = false) :
    (findAvailablePort avail DEFAULT_PORT MAX_PORT_ATTEMPTS).2 =
      Except.error (.noPortAvailable DEFAULT_PORT (DEFAULT_PORT + MAX_PORT_ATTEMPTS - 1)) ∧
    ∀ (isPackaged : Bool) (resourcesPath dirname : List Char) (pid : Nat)
      (events : List BackendEvent) (st0 : SupState) (pathExists : List Char → Bool),
      bm1Start avail isPackaged resourcesPath dirname pid events st0 =
        ⟨some (.error (.noPortAvailable DEFAULT_PORT (DEFAULT_PORT + MAX_PORT_ATTEMPTS - 1))),
         st0, none, none⟩ ∧
      bm2Start avail pathExists isPackaged resourcesPath dirname pid events st0 =
        ⟨some (.error (.noPortAvailable DEFAULT_PORT (DEFAULT_PORT + MAX_PORT_ATTEMPTS - 1))),
         st0, none, none⟩ := by
  have hnone := findFrom_none avail MAX_PORT_ATTEMPTS DEFAULT_PORT h
  have hfind : (findAvailablePort avail DEFAULT_PORT MAX_PORT_ATTEMPTS).2 =
      Except.error (.noPortAvailable DEFAULT_PORT (DEFAULT_PORT + MAX_PORT_ATTEMPTS - 1)) := by
    simp [findAvailablePort, hnone]
  refine ⟨hfind, fun isPackaged resourcesPath dirname pid events st0 pathExists => ?_⟩
  constructor
  · simp [bm1Start, hfind]
  · simp [bm2Start, hfind]

/-- Witness for `c2_no_port_no_spawn`: with no port ever available, the
allocator reports range 7861–7870 and neither variant spawns. -/
theorem c2_no_port_no_spawn_witness :
    (findAvailablePort (fun _ => false) DEFAULT_PORT MAX_PORT_ATTEMPTS).2 =
      Except.error (.noPortAvailable DEFAULT_PORT (DEFAULT_PORT + MAX_PORT_ATTEMPTS - 1)) ∧
    bm1Start (fun _ => false) false [] [] 1 [] SupState.init =
      ⟨some (.error (.noPortAvailable DEFAULT_PORT (DEFAULT_PORT + MAX_PORT_ATTEMPTS - 1))),
       SupState.init, none, none⟩ ∧
    bm2Start (fun _ => false) (fun _ => true) false [] [] 1 [] SupState.init =
      ⟨some (.error (.noPortAvailable DEFAULT_PORT (DEFAULT_PORT + MAX_PORT_ATTEMPTS - 1))),
       SupState.init, none, none⟩ := by
  have h := c2_no_port_no_spawn (fun _ => false) (fun p _ _ => rfl)
  exact ⟨h.1, (h.2 false [] [] 1 [] SupState.init (fun _ => true)).1,
         (h.2 false [] [] 1 [] SupState.init (fun _ => true)).2⟩

/-- C3: `stop()` always resolves — it is a total function of the state
and the reported kill error.  With no process handle it returns the
state unchanged and signals nothing; with a handle it issues the
termination signal for that pid and clears `process` and `isReady`,
for both values of the kill-error flag. -/
theorem c3_stop_always_resolves (st : SupState) (killErr : Bool) :
    (st.process = none → stop st killErr = (none, st)) ∧
    (∀ pid, st.process = some pid →
      stop st killErr = (some pid, { st with process := none, isReady := false })) := by
  cases hp : st.process with
  | none => exact ⟨fun _ => by simp [stop, hp], fun pid hpid => Option.noConfusion hpid⟩
  | some q =>
    refine ⟨fun hnone => Option.noConfusion hnone, fun pid hpid => ?_⟩
    obtain rfl : q = pid := Option.some.inj hpid
    simp [stop, hp]

/-- Witness for `c3_stop_always_resolves`: a running supervisor is
cleared even when the kill reports an error, and an idle one is left
alone. -/
theorem c3_stop_always_resolves_witness :
    stop ⟨some 7, 7861, true⟩ true = (some 7, ⟨none, 7861, false⟩) ∧
    stop ⟨none, 7899, false⟩ false = (none, ⟨none, 7899, false⟩) :=
  ⟨(c3_stop_always_resolves ⟨some 7, 7861, true⟩ true).2 7 rfl,
   (c3_stop_always_resolves ⟨none, 7899, false⟩ false).1 rfl⟩

/-- C4: a stdout chunk `"Running on http://localhost:7899"` is accepted
as readiness by both variants with port 7899 — the `localhost:(\d+)`
capture overrides whatever port was allocated — and a `start()` whose
child emits it (with every port free, so 7861 was allocated) resolves
with 7899 and records 7899 in the supervisor state. -/
theorem c4_resolves_7899 :
    (∀ port : Nat, bm1Stdout port ("Running on http://localhost:7899".data) = some 7899) ∧
    (∀ port : Nat, bm2Stdout port ("Running on http://localhost:7899".data) = some 7899) ∧
    ∀ (isPackaged : Bool) (resourcesPath dirname : List Char) (pid : Nat) (st0 : SupState),
      (bm1Start (fun _ => true) isPackaged resourcesPath dirname pid
        [.stdout ("Running on http://localhost:7899".data)] st0).outcome =
          some (Except.ok 7899) ∧
      (bm1Start (fun _ => true) isPackaged resourcesPath dirname pid
        [.stdout ("Running on http://localhost:7899".data)] st0).sup.port = 7899 ∧
      (bm2Start (fun _ => true) (fun _ => true) isPackaged resourcesPath dirname pid
        [.stdout ("Running on http://localhost:7899".data)] st0).outcome =
          some (Except.ok 7899) ∧
      (bm2Start (fun _ => true) (fun _ => true) isPackaged resourcesPath dirname pid
        [.stdout ("Running on http://localhost:7899".data)] st0).sup.port = 7899 := by
  have hm : matchLocalhostPort ("Running on http://localhost:7899".data) = some 7899 := by
    decide
  have hr : containsSub ("Running on http://localhost:7899".data) ("Running on".data) = true := by
    decide
  have hi : containsSub ("Running on http://localhost:7899".data) ("initializing".data) = false := by
    decide
  have h1 : ∀ port : Nat,
      bm1Stdout port ("Running on http://localhost:7899".data) = some 7899 := by
    intro port; simp [bm1Stdout, hm, hr]
  have h2 : ∀ port : Nat,
      bm2Stdout port ("Running on http://localhost:7899".data) = some 7899 := by
    intro port; simp [bm2Stdout, hm, hr, hi]
  have hfind : (findAvailablePort (fun _ => true) DEFAULT_PORT MAX_PORT_ATTEMPTS).2 =
      Except.ok 7861 := by decide
  refine ⟨h1, h2, fun isPackaged resourcesPath dirname pid st0 => ?_⟩
  refine ⟨?_, ?_, ?_, ?_⟩ <;>
    simp [bm1Start, bm2Start, hfind, stepEvent, h1, h2, settleWith]

theorem settleWith_sup (rs : RunState) (r : Except StartError Nat) :
    (settleWith rs r).sup = rs.sup := by
  cases h : rs.settled <;> simp [settleWith, h]

theorem settleWith_of_pending (rs : RunState) (r : Except StartError Nat)
    (h : rs.settled = none) : settleWith rs r = { rs with settled := some r } := by
  simp [settleWith, h]

theorem stepEvent_stdout_isReady (handler : Nat → List Char → Option Nat) (delayMs : Nat)
    (rs : RunState) (c : List Char) :
    (stepEvent handler delayMs rs (.stdout c)).sup.isReady =
      (rs.sup.isReady || (handler rs.sup.port c).isSome) := by
  cases h : handler rs.sup.port c with
  | none => simp [stepEvent, h]
  | some p => simp [stepEvent, h, settleWith_sup]

theorem stepEvent_exit_isReady (handler : Nat → List Char → Option Nat) (delayMs : Nat)
    (rs : RunState) (code : Int) :
    (stepEvent handler delayMs rs (.exit code)).sup.isReady = false := by
  simp [stepEvent]

theorem foldl_nonready (handler : Nat → List Char → Option Nat) (delayMs : Nat) :
    ∀ (chunks : List (List Char)) (rs : RunState),
      (∀ c ∈ chunks, handler rs.sup.port c = none) →
      (chunks.map BackendEvent.stdout).foldl (stepEvent handler delayMs) rs = rs := by
  intro chunks
  induction chunks with
  | nil => intro rs _; rfl
  | cons c cs ih =>
    intro rs h
    have hc : handler rs.sup.port c = none := h c (by simp)
    have hstep : stepEvent handler delayMs rs (.stdout c) = rs := by
      simp [stepEvent, hc]
    simp only [List.map_cons, List.foldl_cons, hstep]
    exact ih rs (fun d hd => h d (by simp [hd]))

theorem run_nonready (handler : Nat → List Char → Option Nat) (delayMs : Nat)
    (chunks : List (List Char)) (rs0 : RunState)
    (hset : rs0.settled = none) (htc : rs0.timeoutCleared = false)
    (h : ∀ c ∈ chunks, handler rs0.sup.port c = none) :
    (chunks.map BackendEvent.stdout ++ [BackendEvent.timeoutFires]).foldl
        (stepEvent handler delayMs) rs0 =
      { rs0 with settled := some (Except.error (.startupTimeout delayMs)) } := by
  rw [List.foldl_append, foldl_nonready handler delayMs chunks rs0 h]
  simp [stepEvent, htc, settleWith, hset]

theorem bm1Stdout_isSome (port : Nat) (c : List Char) :
    (bm1Stdout port c).isSome = bm1ReadyCond c := by
  simp only [bm1Stdout, bm1ReadyCond]
  cases h : containsSub c ("Running on".data) || (matchLocalhostPort c).isSome <;> simp [h]

theorem bm2Stdout_isSome (port : Nat) (c : List Char) :
    (bm2Stdout port c).isSome = bm2ReadyCond c := by
  simp only [bm2Stdout, bm2ReadyCond]
  cases hi : containsSub c ("initializing".data) with
  | true => simp [hi]
  | false =>
    simp only [hi, Bool.not_false, Bool.true_and, Bool.false_eq_true, if_false]
    cases h : containsSub c ("Running on".data) || containsSub c ("Launching Gradio".data) ||
        containsSub c ("local URL:".data) || (matchLocalhostPort c).isSome <;> simp [h]

theorem foldl_isReady (handler : Nat → List Char → Option Nat) (delayMs : Nat)
    (R : List Char → Bool) (hR : ∀ p c, (handler p c).isSome = R c) :
    ∀ (chunks : List (List Char)) (rs : RunState),
      ((chunks.map BackendEvent.stdout).foldl (stepEvent handler delayMs) rs).sup.isReady =
        (rs.sup.isReady || chunks.any R) := by
  intro chunks
  induction chunks with
  | nil => intro rs; simp
  | cons c cs ih =>
    intro rs
    simp only [List.map_cons, List.foldl_cons, List.any_cons]
    rw [ih, stepEvent_stdout_isReady, hR, Bool.or_assoc]

theorem flipCount_cons (handler : Nat → List Char → Option Nat) (delayMs : Nat)
    (rs : RunState) (e : BackendEvent) (es : List BackendEvent) :
    flipCount handler delayMs rs (e :: es) =
      (if rs.sup.isReady = false ∧ (stepEvent handler delayMs rs e).sup.isReady = true
       then 1 else 0) +
        flipCount handler delayMs (stepEvent handler delayMs rs e) es := rfl

theorem flipCount_of_ready (handler : Nat → List Char → Option Nat) (delayMs : Nat) :
    ∀ (chunks : List (List Char)) (rs : RunState), rs.sup.isReady = true →
      flipCount handler delayMs rs (chunks.map BackendEvent.stdout) = 0 := by
  intro chunks
  induction chunks with
  | nil => intro rs _; rfl
  | cons c cs ih =>
    intro rs h
    have h2 : (stepEvent handler delayMs rs (.stdout c)).sup.isReady = true := by
      rw [stepEvent_stdout_isReady, h, Bool.true_or]
    have hneg : ¬ (rs.sup.isReady = false ∧
        (stepEvent handler delayMs rs (.stdout c)).sup.isReady = true) := by
      simp [h]
    rw [List.map_cons, flipCount_cons, ih _ h2, if_neg hneg]

theorem flipCount_le_one (handler : Nat → List Char → Option Nat) (delayMs : Nat) :
    ∀ (chunks : List (List Char)) (rs : RunState),
      flipCount handler delayMs rs (chunks.map BackendEvent.stdout) ≤ 1 := by
  intro chunks
  induction chunks with
  | nil => intro rs; simp [flipCount]
  | cons c cs ih =>
    intro rs
    rw [List.map_cons, flipCount_cons]
    cases h2 : (stepEvent handler delayMs rs (.stdout c)).sup.isReady with
    | false =>
      simp only [Bool.false_eq_true, and_false, if_false, Nat.zero_add]
      exact ih _
    | true =>
      rw [flipCount_of_ready handler delayMs cs _ h2]
      split <;> simp

/-- C9: along any one child-process lifetime — a sequence of stdout
chunks optionally closed by an exit event — starting with `isReady =
false`, in both variants the ready flag after `n` chunks is true
exactly when a readiness-marker chunk occurs among the first `n` (so
the flag first becomes true at the first marker), the flag flips from
false to true at most once, and processing the exit event leaves the
flag false. -/
theorem c9_ready_flag_lifecycle (chunks : List (List Char)) (rs0 : RunState) (code : Int)
    (h0 : rs0.sup.isReady = false) :
    ((∀ n, (((chunks.take n).map BackendEvent.stdout).foldl
        (stepEvent bm1Stdout bm1TimeoutMs) rs0).sup.isReady =
        (chunks.take n).any bm1ReadyCond) ∧
     flipCount bm1Stdout bm1TimeoutMs rs0 (chunks.map BackendEvent.stdout) ≤ 1 ∧
     ((chunks.map BackendEvent.stdout ++ [BackendEvent.exit code]).foldl
        (stepEvent bm1Stdout bm1TimeoutMs) rs0).sup.isReady = false) ∧
    ((∀ n, (((chunks.take n).map BackendEvent.stdout).foldl
        (stepEvent bm2Stdout bm2TimeoutMs) rs0).sup.isReady =
        (chunks.take n).any bm2ReadyCond) ∧
     flipCount bm2Stdout bm2TimeoutMs rs0 (chunks.map BackendEvent.stdout) ≤ 1 ∧
     ((chunks.map BackendEvent.stdout ++ [BackendEvent.exit code]).foldl
        (stepEvent bm2Stdout bm2TimeoutMs) rs0).sup.isReady = false) := by
  refine ⟨⟨fun n => ?_, flipCount_le_one _ _ chunks rs0, ?_⟩,
          ⟨fun n => ?_, flipCount_le_one _ _ chunks rs0, ?_⟩⟩
  · rw [foldl_isReady bm1Stdout bm1TimeoutMs bm1ReadyCond bm1Stdout_isSome, h0, Bool.false_or]
  · rw [List.foldl_append, List.foldl_cons, List.foldl_nil, stepEvent_exit_isReady]
  · rw [foldl_isReady bm2Stdout bm2TimeoutMs bm2ReadyCond bm2Stdout_isSome, h0, Bool.false_or]
  · rw [List.foldl_append, List.foldl_cons, List.foldl_nil, stepEvent_exit_isReady]

/-- Witness for `c9_ready_flag_lifecycle`: a lifetime with one
non-marker chunk and two marker chunks flips the flag at most once and
ends with the flag cleared by exit. -/
theorem c9_ready_flag_lifecycle_witness :
    flipCount bm1Stdout bm1TimeoutMs ⟨none, false, SupState.init⟩
      ([("booting".data), ("Running on a".data), ("Running on b".data)].map
        BackendEvent.stdout) ≤ 1 ∧
    (([("booting".data), ("Running on a".data), ("Running on b".data)].map
        BackendEvent.stdout ++ [BackendEvent.exit 0]).foldl
      (stepEvent bm1Stdout bm1TimeoutMs) ⟨none, false, SupState.init⟩).sup.isReady = false :=
  ⟨(c9_ready_flag_lifecycle [("booting".data), ("Running on a".data), ("Running on b".data)]
      ⟨none, false, SupState.init⟩ 0 rfl).1.2.1,
   (c9_ready_flag_lifecycle [("booting".data), ("Running on a".data), ("Running on b".data)]
      ⟨none, false, SupState.init⟩ 0 rfl).1.2.2⟩

/-- C5 (amended): when no chunk the child writes is a readiness signal
and the startup timer fires, `start()` rejects with the
startup-timeout error — but the fixed delay is 60 s (60000 ms) only in
the preload.js variant; backend-manager.js registers a 30 s (30000 ms)
timer.  Stated over runs that allocated port 7861 (every port free). -/
theorem c5_amended_startup_timeout (chunks : List (List Char)) (isPackaged : Bool)
    (resourcesPath dirname : List Char) (pid : Nat) (st0 : SupState)
    (h1 : ∀ c ∈ chunks, bm1Stdout 7861 c = none)
    (h2 : ∀ c ∈ chunks, bm2Stdout 7861 c = none) :
    (bm1Start (fun _ => true) isPackaged resourcesPath dirname pid
      (chunks.map BackendEvent.stdout ++ [BackendEvent.timeoutFires]) st0).outcome =
        some (Except.error (.startupTimeout bm1TimeoutMs)) ∧
    (bm1Start (fun _ => true) isPackaged resourcesPath dirname pid
      (chunks.map BackendEvent.stdout ++ [BackendEvent.timeoutFires]) st0).timerDelayMs =
        some bm1TimeoutMs ∧
    bm1TimeoutMs = 30 * 1000 ∧
    (bm2Start (fun _ => true) (fun _ => true) isPackaged resourcesPath dirname pid
      (chunks.map BackendEvent.stdout ++ [BackendEvent.timeoutFires]) st0).outcome =
        some (Except.error (.startupTimeout bm2TimeoutMs)) ∧
    (bm2Start (fun _ => true) (fun _ => true) isPackaged resourcesPath dirname pid
      (chunks.map BackendEvent.stdout ++ [BackendEvent.timeoutFires]) st0).timerDelayMs =
        some bm2TimeoutMs ∧
    bm2TimeoutMs = 60 * 1000 := by
  have hfind : (findAvailablePort (fun _ => true) DEFAULT_PORT MAX_PORT_ATTEMPTS).2 =
      Except.ok 7861 := by decide
  have hrun1 := run_nonready bm1Stdout bm1TimeoutMs chunks
    ⟨none, false, { st0 with port := 7861, process := some pid }⟩ rfl rfl h1
  have hrun2 := run_nonready bm2Stdout bm2TimeoutMs chunks
    ⟨none, false, { st0 with port := 7861, process := some pid }⟩ rfl rfl h2
  refine ⟨?_, ?_, rfl, ?_, ?_, rfl⟩ <;>
    simp [bm1Start, bm2Start, hfind, hrun1, hrun2]

/-- Witness for `c5_amended_startup_timeout`: a child that writes one
non-readiness chunk before the timer fires. -/
theorem c5_amended_startup_timeout_witness :
    (bm1Start (fun _ => true) false [] [] 5
      ([("loading model".data)].map BackendEvent.stdout ++ [BackendEvent.timeoutFires])
      SupState.init).outcome = some (Except.error (.startupTimeout bm1TimeoutMs)) ∧
    (bm2Start (fun _ => true) (fun _ => true) false [] [] 5
      ([("loading model".data)].map BackendEvent.stdout ++ [BackendEvent.timeoutFires])
      SupState.init).outcome = some (Except.error (.startupTimeout bm2TimeoutMs)) := by
  have h := c5_amended_startup_timeout [("loading model".data)] false [] [] 5 SupState.init
    (by intro c hc; rw [List.mem_singleton] at hc; subst hc; decide)
    (by intro c hc; rw [List.mem_singleton] at hc; subst hc; decide)
  exact ⟨h.1, h.2.2.2.1⟩

/-- C5 counterexample: the claim fixes the timeout at 60 seconds, but
backend-manager.js registers its startup timer with a 30000 ms delay
and rejects with the 30 s startup-timeout error when it fires. -/
theorem c5_counterexample :
    (bm1Start (fun _ => true) false [] [] 5 [BackendEvent.timeoutFires] SupState.init).outcome =
      some (Except.error (.startupTimeout 30000)) ∧
    (bm1Start (fun _ => true) false [] [] 5 [BackendEvent.timeoutFires]
      SupState.init).timerDelayMs = some 30000 ∧
    (30000 : Nat) ≠ 60 * 1000 := by decide

/-- C6 (amended): only the preload.js variant checks that the backend
executable exists; when the check fails, its `start()` rejects with the
not-found error carrying the resolved path and a remediation hint that
differs between the packaged and the development location, no spawn
call is made, and the only state change is the allocated port.  The
backend-manager.js variant performs no such check (see the C6
counterexample). -/
theorem c6_amended_backend_not_found (pathExists : List Char → Bool) (isPackaged : Bool)
    (resourcesPath dirname : List Char) (pid : Nat) (events : List BackendEvent)
    (st0 : SupState)
    (h : pathExists (getBackendPath isPackaged resourcesPath dirname) = false) :
    bm2Start (fun _ => true) pathExists isPackaged resourcesPath dirname pid events st0 =
      ⟨some (Except.error (.backendNotFound (getBackendPath isPackaged resourcesPath dirname)
          (if isPackaged then packagedHint else devHint))),
       { st0 with port := 7861 }, none, none⟩ ∧
    devHint ≠ packagedHint := by
  have hfind : (findAvailablePort (fun _ => true) DEFAULT_PORT MAX_PORT_ATTEMPTS).2 =
      Except.ok 7861 := by decide
  refine ⟨?_, by decide⟩
  simp [bm2Start, hfind, h]

/-- Witness for `c6_amended_backend_not_found`: a filesystem with no
files at all, development location. -/
theorem c6_amended_backend_not_found_witness :
    bm2Start (fun _ => true) (fun _ => false) false [] [] 1 [] SupState.init =
      ⟨some (Except.error (.backendNotFound (getBackendPath false [] [])
          (if false then packagedHint else devHint))),
       { SupState.init with port := 7861 }, none, none⟩ ∧
    devHint ≠ packagedHint :=
  c6_amended_backend_not_found (fun _ => false) false [] [] 1 [] SupState.init rfl

/-- C6 counterexample: backend-manager.js never consults the
filesystem — its `start()` takes no existence information at all — and
with a missing executable the spawn is attempted and the failure
surfaces as the spawn-error rejection raised by the child's `error`
event, not as a not-found error produced before the spawn. -/
theorem c6_counterexample :
    (bm1Start (fun _ => true) false [] [] 5
      [BackendEvent.procError ("spawn ENOENT".data)] SupState.init).spawned =
        some ⟨getBackendPath false [] [], ["-u".data], true, true⟩ ∧
    (bm1Start (fun _ => true) false [] [] 5
      [BackendEvent.procError ("spawn ENOENT".data)] SupState.init).outcome =
        some (Except.error (.spawnError ("spawn ENOENT".data))) := by decide

/-- C7 (amended): when the child writes no readiness signal and the
startup timer fires, both variants reject with their startup-timeout
error but the process handle is NOT cleared: it remains in the
supervisor state, and a subsequent `stop()` is not a no-op — it issues
a termination signal for the residual pid and clears the state. -/
theorem c7_amended_residual_process (chunks : List (List Char)) (isPackaged : Bool)
    (resourcesPath dirname : List Char) (pid : Nat) (st0 : SupState)
    (h1 : ∀ c ∈ chunks, bm1Stdout 7861 c = none)
    (h2 : ∀ c ∈ chunks, bm2Stdout 7861 c = none) :
    (bm1Start (fun _ => true) isPackaged resourcesPath dirname pid
      (chunks.map BackendEvent.stdout ++ [BackendEvent.timeoutFires]) st0).outcome =
        some (Except.error (.startupTimeout bm1TimeoutMs)) ∧
    (bm1Start (fun _ => true) isPackaged resourcesPath dirname pid
      (chunks.map BackendEvent.stdout ++ [BackendEvent.timeoutFires]) st0).sup.process =
        some pid ∧
    (∀ killErr, stop (bm1Start (fun _ => true) isPackaged resourcesPath dirname pid
      (chunks.map BackendEvent.stdout ++ [BackendEvent.timeoutFires]) st0).sup killErr =
        (some pid, { (bm1Start (fun _ => true) isPackaged resourcesPath dirname pid
          (chunks.map BackendEvent.stdout ++ [BackendEvent.timeoutFires]) st0).sup with
            process := none, isReady := false })) ∧
    (bm2Start (fun _ => true) (fun _ => true) isPackaged resourcesPath dirname pid
      (chunks.map BackendEvent.stdout ++ [BackendEvent.timeoutFires]) st0).outcome =
        some (Except.error (.startupTimeout bm2TimeoutMs)) ∧
    (bm2Start (fun _ => true) (fun _ => true) isPackaged resourcesPath dirname pid
      (chunks.map BackendEvent.stdout ++ [BackendEvent.timeoutFires]) st0).sup.process =
        some pid := by
  have hfind : (findAvailablePort (fun _ => true) DEFAULT_PORT MAX_PORT_ATTEMPTS).2 =
      Except.ok 7861 := by decide
  have hrun1 := run_nonready bm1Stdout bm1TimeoutMs chunks
    ⟨none, false, { st0 with port := 7861, process := some pid }⟩ rfl rfl h1
  have hrun2 := run_nonready bm2Stdout bm2TimeoutMs chunks
    ⟨none, false, { st0 with port := 7861, process := some pid }⟩ rfl rfl h2
  have hproc : (bm1Start (fun _ => true) isPackaged resourcesPath dirname pid
      (chunks.map BackendEvent.stdout ++ [BackendEvent.timeoutFires]) st0).sup.process =
        some pid := by
    simp [bm1Start, hfind, hrun1]
  refine ⟨?_, hproc, fun killErr => ?_, ?_, ?_⟩
  · simp [bm1Start, hfind, hrun1]
  · simp [stop, hproc]
  · simp [bm2Start, hfind, hrun2]
  · simp [bm2Start, hfind, hrun2]

/-- Witness for `c7_amended_residual_process`: a silent child (no
chunks at all) that times out. -/
theorem c7_amended_residual_process_witness :
    (bm1Start (fun _ => true) false [] [] 5 [BackendEvent.timeoutFires] SupState.init).outcome =
      some (Except.error (.startupTimeout bm1TimeoutMs)) ∧
    (bm1Start (fun _ => true) false [] [] 5 [BackendEvent.timeoutFires]
      SupState.init).sup.process = some 5 ∧
    stop (bm1Start (fun _ => true) false [] [] 5 [BackendEvent.timeoutFires]
      SupState.init).sup true =
        (some 5, { (bm1Start (fun _ => true) false [] [] 5 [BackendEvent.timeoutFires]
          SupState.init).sup with process := none, isReady := false }) := by
  have h := c7_amended_residual_process [] false [] [] 5 SupState.init
    (by intro c hc; cases hc) (by intro c hc; cases hc)
  exact ⟨h.1, h.2.1, h.2.2.1 true⟩

/-- C7 counterexample: after a silent startup timeout in the preload.js
variant the process handle is still present and a subsequent `stop()`
changes the state — it is not a no-op — contradicting the claim that no
residual process handle remains. -/
theorem c7_counterexample :
    (bm2Start (fun _ => true) (fun _ => true) false [] [] 5 [BackendEvent.timeoutFires]
      SupState.init).outcome = some (Except.error (.startupTimeout 60000)) ∧
    (bm2Start (fun _ => true) (fun _ => true) false [] [] 5 [BackendEvent.timeoutFires]
      SupState.init).sup.process = some 5 ∧
    stop (bm2Start (fun _ => true) (fun _ => true) false [] [] 5 [BackendEvent.timeoutFires]
      SupState.init).sup false ≠
      (none, (bm2Start (fun _ => true) (fun _ => true) false [] [] 5 [BackendEvent.timeoutFires]
        SupState.init).sup) := by decide

/-- C8 (amended): for every successful port allocation the preload.js
variant spawns the backend executable with the unbuffered flag and
`--port <allocated port>`, stdio fully piped (captured) and the console
window hidden; backend-manager.js passes only the unbuffered flag (see
the C8 counterexample). -/
theorem c8_amended_spawn_args (avail : Nat → Bool) (p : Nat)
    (hfind : (findAvailablePort avail DEFAULT_PORT MAX_PORT_ATTEMPTS).2 = Except.ok p)
    (isPackaged : Bool) (resourcesPath dirname : List Char) (pid : Nat)
    (events : List BackendEvent) (st0 : SupState) :
    (bm2Start avail (fun _ => true) isPackaged resourcesPath dirname pid events st0).spawned =
      some ⟨getBackendPath isPackaged resourcesPath dirname,
            ["-u".data, "--port".data, natToChars p], true, true⟩ := by
  simp [bm2Start, hfind]

/-- Witness for `c8_amended_spawn_args`: with every port free the
allocation yields 7861 and the spawn passes `--port 7861`. -/
theorem c8_amended_spawn_args_witness :
    (bm2Start (fun _ => true) (fun _ => true) false [] [] 1 [] SupState.init).spawned =
      some ⟨getBackendPath false [] [], ["-u".data, "--port".data, natToChars 7861],
            true, true⟩ :=
  c8_amended_spawn_args (fun _ => true) 7861 (by decide) false [] [] 1 [] SupState.init

/-- C8 counterexample: backend-manager.js spawns with argument vector
exactly `['-u']` — the allocated port is never passed as a `--port`
argument. -/
theorem c8_counterexample :
    (bm1Start (fun _ => true) false [] [] 5 [] SupState.init).spawned =
      some ⟨getBackendPath false [] [], ["-u".data], true, true⟩ ∧
    ¬ ("--port".data) ∈
      (((bm1Start (fun _ => true) false [] [] 5 [] SupState.init).spawned.map
        SpawnCall.args).getD []) := by decide

/-- C10 (amended): a stdout chunk containing `"Running on"` with no
`localhost:<digits>` match is accepted as readiness with the current
port unchanged by backend-manager.js unconditionally, and by the
preload.js variant only when the chunk does not also contain
`"initializing"`; a `start()` that allocated 7861 (every port free) and
receives such a chunk resolves with 7861. -/
theorem c10_amended_running_on_keeps_port (c : List Char) (port : Nat)
    (hro : containsSub c ("Running on".data) = true)
    (hnm : matchLocalhostPort c = none) :
    bm1Stdout port c = some port ∧
    (containsSub c ("initializing".data) = false → bm2Stdout port c = some port) ∧
    ∀ (isPackaged : Bool) (resourcesPath dirname : List Char) (pid : Nat) (st0 : SupState),
      (bm1Start (fun _ => true) isPackaged resourcesPath dirname pid
        [BackendEvent.stdout c] st0).outcome = some (Except.ok 7861) ∧
      (containsSub c ("initializing".data) = false →
        (bm2Start (fun _ => true) (fun _ => true) isPackaged resourcesPath dirname pid
          [BackendEvent.stdout c] st0).outcome = some (Except.ok 7861)) := by
  have hfind : (findAvailablePort (fun _ => true) DEFAULT_PORT MAX_PORT_ATTEMPTS).2 =
      Except.ok 7861 := by decide
  have hb1 : ∀ q : Nat, bm1Stdout q c = some q := by
    intro q; simp [bm1Stdout, hro, hnm]
  have hb2 : containsSub c ("initializing".data) = false → ∀ q : Nat,
      bm2Stdout q c = some q := by
    intro hi q; simp [bm2Stdout, hro, hnm, hi]
  refine ⟨hb1 port, fun hi => hb2 hi port, fun isPackaged resourcesPath dirname pid st0 => ?_⟩
  constructor
  · simp [bm1Start, hfind, stepEvent, hb1, settleWith]
  · intro hi
    simp [bm2Start, hfind, stepEvent, hb2 hi, settleWith]

/-- Witness for `c10_amended_running_on_keeps_port`: the chunk
`"Running on dev server"` has no `localhost:<digits>` match and keeps
the current port. -/
theorem c10_amended_running_on_keeps_port_witness :
    bm1Stdout 4242 ("Running on dev server".data) = some 4242 ∧
    bm2Stdout 4242 ("Running on dev server".data) = some 4242 ∧
    (bm1Start (fun _ => true) false [] [] 5
      [BackendEvent.stdout ("Running on dev server".data)] SupState.init).outcome =
        some (Except.ok 7861) := by
  have h := c10_amended_running_on_keeps_port ("Running on dev server".data) 4242
    (by decide) (by decide)
  exact ⟨h.1, h.2.1 (by decide), (h.2.2 false [] [] 5 SupState.init).1⟩

/-- C10 counterexample: in the preload.js variant a chunk that contains
both `"initializing"` and `"Running on"` (and no `localhost:<digits>`
match) is NOT treated as a readiness signal: the handler returns
early, the promise stays pending and the ready flag stays false. -/
theorem c10_counterexample :
    containsSub ("initializing: Running on backend".data) ("Running on".data) = true ∧
    matchLocalhostPort ("initializing: Running on backend".data) = none ∧
    bm2Stdout 7861 ("initializing: Running on backend".data) = none ∧
    (bm2Start (fun _ => true) (fun _ => true) false [] [] 5
      [BackendEvent.stdout ("initializing: Running on backend".data)]
      SupState.init).outcome = none ∧
    (bm2Start (fun _ => true) (fun _ => true) false [] [] 5
      [BackendEvent.stdout ("initializing: Running on backend".data)]
      SupState.init).sup.isReady = false := by decide

end PPTAgent
